import Mathlib

/-!
Verification development for the serverless-benchmarking framework's workflow
generator (`sebs/faas/fsm.py`, `sebs/aws/generator.py`) and trigger layer
(`sebs/aws/triggers.py`, `sebs/azure/triggers.py`).

The Python code is shallowly embedded: JSON documents become the inductive
`JVal`, Python `dict` literals become ordered association lists, `dict`
subscript assignment becomes `setKey` (replace-in-place or append), raisable
code returns `Except PyExc`, and every draw of `uuid.uuid4()` is passed in as
an explicit string argument (the first eight characters of the textual UUID,
exactly what the code slices off).
-/

namespace SeBS

/-- JSON-like values as produced by `json.load` / consumed by `json.dumps`.
Numeric literals are modelled as integers (no claim exercises floats). -/
inductive JVal where
  | null : JVal
  | bool (b : Bool) : JVal
  | num (n : Int) : JVal
  | str (s : String) : JVal
  | arr (xs : List JVal) : JVal
  | obj (fs : List (String × JVal)) : JVal

/-- Python exceptions that the embedded code can raise. -/
inductive PyExc where
  | keyError (key : String) : PyExc
  | typeError (msg : String) : PyExc
  | valueError (msg : String) : PyExc
  | attributeError (msg : String) : PyExc
  | indexError : PyExc
  | notImplementedError (msg : String) : PyExc
  | runtimeError : PyExc
  | assertionError : PyExc
deriving DecidableEq

/-- Lookup in an ordered association list (Python `dict` access, first match;
dictionaries built by the embedded code never carry duplicate keys). -/
def lookupKey (fs : List (String × JVal)) (k : String) : Option JVal :=
  match fs with
  | [] => none
  | (k', v) :: rest => if k' = k then some v else lookupKey rest k

/-- Python `d[k] = v`: replace the value in place if the key exists,
otherwise append the new entry (insertion order preserved). -/
def setKey (fs : List (String × JVal)) (k : String) (v : JVal) :
    List (String × JVal) :=
  match fs with
  | [] => [(k, v)]
  | (k', v') :: rest => if k' = k then (k, v) :: rest else (k', v') :: setKey rest k v

/-- Python `del d[k]` restricted to a present key: drop the first entry. -/
def delKey (fs : List (String × JVal)) (k : String) : List (String × JVal) :=
  match fs with
  | [] => []
  | (k', v') :: rest => if k' = k then rest else (k', v') :: delKey rest k

/-- Subscript assignment on a `JVal` known to be an object. -/
def JVal.set (j : JVal) (k : String) (v : JVal) : JVal :=
  match j with
  | .obj fs => .obj (setKey fs k v)
  | other => other

/-- Subscript read on a `JVal` object, `none` when absent or not an object. -/
def JVal.get (j : JVal) (k : String) : Option JVal :=
  match j with
  | .obj fs => lookupKey fs k
  | _ => none

/-- Python subscript `d[k]`: `KeyError` when the key is absent. -/
def JVal.getE (j : JVal) (k : String) : Except PyExc JVal :=
  match j with
  | .obj fs =>
    match lookupKey fs k with
    | some v => .ok v
    | none => .error (.keyError k)
  | _ => .error (.typeError "value is not subscriptable")

/-- The embedding keeps state fields as Lean strings; a JSON value standing
for a name/path field must be a string. -/
def JVal.asStr (j : JVal) : Except PyExc String :=
  match j with
  | .str s => .ok s
  | _ => .error (.typeError "expected a string value")

/-- Rendering of a JSON value used as a failed dictionary key in a
`KeyError` message. -/
def jkey (j : JVal) : String :=
  match j with
  | .str s => s
  | _ => "<non-string key>"

/-- Python truthiness of an optional string (`None` and `""` are falsy),
as used by `if state.next:` and `if state.common_params:`. -/
def truthy (o : Option String) : Bool :=
  match o with
  | none => false
  | some s => !(s == "")

/-- Effectful iteration over a Python list (comprehensions and loops over
`Except`-returning code), stopping at the first raised exception. -/
def mapME {α β : Type} (f : α → Except PyExc β) : List α → Except PyExc (List β)
  | [] => .ok []
  | x :: xs => do
    let y ← f x
    let ys ← mapME f xs
    .ok (y :: ys)

/-! ## The workflow IR (`sebs/faas/fsm.py`) -/

/-- `Task` state: `name`, `func_name`, optional `next`. -/
structure Task where
  name : String
  func_name : String
  next : Option String
deriving DecidableEq

/-- `Switch.Case`: `(var, op, val, next)`; `val` keeps its JSON type, since
`_encode_case` dispatches on whether it is a number. -/
structure Case where
  var : String
  op : String
  val : JVal
  next : String

/-- `Switch` state: ordered cases and a `default` target (JSON `null` becomes
`none`). -/
structure Switch where
  name : String
  cases : List Case
  default : Option String

/-- `Map` state. The copy of `fsm.py` under study omits `common_params`,
but `SFNGenerator.encode_map` reads it; the field is
modelled from the spec: an optional comma-separated list of payload field
names broadcast to every iteration (absent or `None` means no broadcast). -/
structure MapState where
  name : String
  func_name : String
  array : String
  next : Option String
  common_params : Option String
deriving DecidableEq

/-- Modelled from the spec: the `Loop` state class is imported by
`sebs/aws/generator.py` from `sebs/faas/fsm.py` but missing from the copy
under study. Per the spec it is "a Map degraded to force sequential
execution", so it carries the same identifying fields as `Map` without
`common_params`. -/
structure Loop where
  name : String
  func_name : String
  array : String
  next : Option String
deriving DecidableEq

/-- Modelled from the spec: the `Parallel` state class is imported by
`sebs/aws/generator.py` but missing from the copy of `fsm.py` under study.
Per the spec it has named branch sub-states; `encode_parallel` reads
`state.funcs` as a name-to-state-document mapping and `state.name`,
`state.next`. -/
structure Parallel where
  name : String
  funcs : List (String × JVal)
  next : Option String

/-- The closed variant set produced by parsing (`_STATE_TYPES` registers
`task`, `switch` and `map` only). -/
inductive StateV where
  | task (t : Task) : StateV
  | switch (s : Switch) : StateV
  | map (m : MapState) : StateV

/-- Name of a parsed state. -/
def StateV.name (s : StateV) : String :=
  match s with
  | .task t => t.name
  | .switch s => s.name
  | .map m => m.name

/-- Read an optional string field the way `payload.get(k)` feeding an
optional attribute does: absent and JSON `null` both become `none`. -/
def getOptStr (payload : JVal) (k : String) : Except PyExc (Option String) :=
  match payload.get k with
  | none => .ok none
  | some .null => .ok none
  | some (.str s) => .ok (some s)
  | some _ => .error (.typeError "expected a string value")

/-- `Task.deserialize`: required `func_name`, optional `next`. -/
def Task.deserialize (name : String) (payload : JVal) : Except PyExc Task := do
  let fn ← (← payload.getE "func_name").asStr
  let nxt ← getOptStr payload "next"
  .ok { name := name, func_name := fn, next := nxt }

/-- `Switch.Case.deserialize(payload)` is `Switch.Case(**payload)`: the
document must be an object holding exactly the keyword arguments
`var`, `op`, `val`, `next` (anything else is a `TypeError`). -/
def Case.deserialize (c : JVal) : Except PyExc Case :=
  match c with
  | .obj fs =>
    if fs.all (fun kv => kv.1 = "var" ∨ kv.1 = "op" ∨ kv.1 = "val" ∨ kv.1 = "next") then
      match lookupKey fs "var", lookupKey fs "op", lookupKey fs "val", lookupKey fs "next" with
      | some (.str var), some (.str op), some val, some (.str nxt) =>
        .ok { var := var, op := op, val := val, next := nxt }
      | _, _, _, _ => .error (.typeError "missing required argument")
    else .error (.typeError "unexpected keyword argument")
  | _ => .error (.typeError "argument after ** must be a mapping")

/-- `Switch.deserialize`: required `cases` list and `default`. -/
def Switch.deserialize (name : String) (payload : JVal) : Except PyExc Switch := do
  let cs ← payload.getE "cases"
  match cs with
  | .arr docs =>
    let cases ← mapME Case.deserialize docs
    let d ← payload.getE "default"
    match d with
    | .null => .ok { name := name, cases := cases, default := none }
    | .str s => .ok { name := name, cases := cases, default := some s }
    | _ => .error (.typeError "expected a string value")
  | _ => .error (.typeError "cases is not a list")

/-- `Map.deserialize`: required `func_name` and `array`, optional `next`.
The `common_params` read is modelled from the spec (optional variant field
per the data model), since the copy of `fsm.py` under study omits it. -/
def MapState.deserialize (name : String) (payload : JVal) : Except PyExc MapState := do
  let fn ← (← payload.getE "func_name").asStr
  let arrayPath ← (← payload.getE "array").asStr
  let nxt ← getOptStr payload "next"
  let cp ← getOptStr payload "common_params"
  .ok { name := name, func_name := fn, array := arrayPath, next := nxt,
        common_params := cp }

/-- `State.deserialize`: dispatch on `payload["type"]` through the
`_STATE_TYPES` registry `{task, switch, map}`; an unregistered tag is a
failed dictionary lookup, i.e. a `KeyError` (the failure mode the spec's
taxonomy files under `DefinitionError`). -/
def State.deserialize (name : String) (payload : JVal) : Except PyExc StateV := do
  let tag ← payload.getE "type"
  match tag with
  | .str "task" => StateV.task <$> Task.deserialize name payload
  | .str "switch" => StateV.switch <$> Switch.deserialize name payload
  | .str "map" => StateV.map <$> MapState.deserialize name payload
  | other => .error (.keyError (jkey other))

/-- Lookup of a parsed state by name in the ordered state mapping. -/
def lookupState (states : List (String × StateV)) (n : String) : Option StateV :=
  match states with
  | [] => none
  | (k, s) :: rest => if k = n then some s else lookupState rest n

/-- The state-mapping comprehension of `Generator.parse`:
`{n: State.deserialize(n, s) for n, s in definition["states"].items()}`. -/
def parseStates (docs : List (String × JVal)) :
    Except PyExc (List (String × StateV)) :=
  mapME (fun nv => do
    let s ← State.deserialize nv.1 nv.2
    pure (nv.1, s)) docs

/-- `Generator.parse`: build the state mapping from `definition["states"]`,
then resolve `definition["root"]` in it; a `root` naming no state is a
failed dictionary lookup (`KeyError`). Returns the parsed graph together
with the root state. -/
def Generator.parse (definition : JVal) : Except PyExc (List (String × StateV) × StateV) := do
  let stateDocs ← definition.getE "states"
  match stateDocs with
  | .obj docs =>
    let states ← parseStates docs
    let rootName ← definition.getE "root"
    match lookupState states (jkey rootName) with
    | some rootState => .ok (states, rootState)
    | none => .error (.keyError (jkey rootName))
  | _ => .error (.attributeError "states is not a dict")

/-! ## The AWS Step Functions generator (`sebs/aws/generator.py`) -/

/-- The captured `func_arns` resolution map. -/
def lookupArn (arns : List (String × String)) (k : String) : Option String :=
  match arns with
  | [] => none
  | (k', v) :: rest => if k' = k then some v else lookupArn rest k

/-- The trailing `if state.next: payload["Next"] = state.next
else: payload["End"] = True` shared by the Task/Parallel/Map encoders
(Python truthiness: `None` and the empty string both mean terminal). -/
def setNextOrEnd (payload : JVal) (next : Option String) : JVal :=
  match next with
  | some nxt =>
    if nxt == "" then payload.set "End" (.bool true)
    else payload.set "Next" (.str nxt)
  | none => payload.set "End" (.bool true)

/-- `SFNGenerator.encode_task`: resolving `func_name` against `func_arns` is
a plain dictionary subscript, so an unresolved name raises `KeyError` (the
failure the spec's taxonomy files under `ReferenceError` /
`UnresolvedFunctionReference`). -/
def SFN.encode_task (arns : List (String × String)) (state : Task) :
    Except PyExc JVal := do
  let resource ← match lookupArn arns state.func_name with
    | some r => Except.ok r
    | none => Except.error (PyExc.keyError state.func_name)
  let payload : JVal := .obj [
    ("Name", .str state.name),
    ("Type", .str "Task"),
    ("Resource", .str resource),
    ("Parameters", .obj [
      ("request_id.$", .str "$.request_id"),
      ("payload.$", .str "$.payload")]),
    ("ResultPath", .str "$.payload")]
  .ok (setNextOrEnd payload state.next)

/-- `isinstance(case.val, numbers.Number)`: JSON numbers and booleans are
Python `Number`s, strings and the rest are not. -/
def isNumberVal (v : JVal) : Bool :=
  match v with
  | .num _ => true
  | .bool _ => true
  | _ => false

/-- The `comp` operator table of `_encode_case`. -/
def compOp (op : String) : Option String :=
  if op = "<" then some "LessThan"
  else if op = "<=" then some "LessThanEquals"
  else if op = "==" then some "Equals"
  else if op = ">=" then some "GreaterThanEquals"
  else if op = ">" then some "GreaterThan"
  else none

/-- `SFNGenerator._encode_case`: an operator outside the table is a failed
dictionary lookup (`KeyError`). -/
def SFN.encode_case (case : Case) : Except PyExc JVal := do
  let ty := if isNumberVal case.val then "Numeric" else "String"
  let comp ← match compOp case.op with
    | some c => Except.ok c
    | none => Except.error (PyExc.keyError case.op)
  .ok (.obj [
    ("Variable", .str ("$.payload" ++ case.var)),
    (ty ++ comp, case.val),
    ("Next", .str case.next)])

/-- `SFNGenerator.encode_switch`. -/
def SFN.encode_switch (state : Switch) : Except PyExc JVal := do
  let choises ← state.cases.mapM SFN.encode_case
  .ok (.obj [
    ("Name", .str state.name),
    ("Type", .str "Choice"),
    ("Choices", .arr choises),
    ("Default", match state.default with
      | some d => .str d
      | none => .null)])

/-- Python `str.split(sep)` for the one-character separator of
`common_params.split(",")` (structurally recursive so that proofs can
evaluate it; agrees with Python, e.g. `""` splits to `[""]`). -/
def pySplitChars (c : Char) : List Char → List (List Char)
  | [] => [[]]
  | x :: xs =>
    if x = c then [] :: pySplitChars c xs
    else
      match pySplitChars c xs with
      | [] => [[x]]
      | g :: gs => (x :: g) :: gs

/-- Python `str.split` on a string, one-character separator. -/
def pySplit (s : String) (c : Char) : List String :=
  (pySplitChars c s.data).map (fun l => ⟨l⟩)

/-- `SFNGenerator.encode_map`. The single `uuid.uuid4()` draw is the
explicit `fresh` argument (its first eight characters). The in-place update
of `payload["Parameters"]` is applied while assembling the literal, which
touches the same inner dictionary the source mutates. -/
def SFN.encode_map (arns : List (String × String)) (fresh : String)
    (state : MapState) : Except PyExc JVal := do
  let map_func_name := "func_" ++ fresh
  let resource ← match lookupArn arns state.func_name with
    | some r => Except.ok r
    | none => Except.error (PyExc.keyError state.func_name)
  let parameters : List (String × JVal) :=
    if truthy state.common_params then
      let params := pySplit (state.common_params.getD "") ','
      let entries := params.foldl
        (fun es param => setKey es (param ++ ".$") (.str ("$.payload." ++ param)))
        [("array_element.$", JVal.str "$$.Map.Item.Value")]
      setKey [("request_id.$", JVal.str "$.request_id")] "payload" (.obj entries)
    else
      setKey [("request_id.$", JVal.str "$.request_id")] "payload.$"
        (.str "$$.Map.Item.Value")
  let payload : JVal := .obj [
    ("Name", .str state.name),
    ("Type", .str "Map"),
    ("ItemsPath", .str ("$.payload." ++ state.array)),
    ("Parameters", .obj parameters),
    ("Iterator", .obj [
      ("StartAt", .str map_func_name),
      ("States", .obj [
        (map_func_name, .obj [
          ("Type", .str "Task"),
          ("Resource", .str resource),
          ("End", .bool true)])])]),
    ("ResultPath", .str ("$.payload." ++ state.array))]
  .ok (setNextOrEnd payload state.next)

/-- `SFNGenerator.encode_loop`: delegate to `encode_map` on
`Map(state.name, state.func_name, state.array, state.next)` (no
`common_params`), then force `MaxConcurrency` to 1, empty the
`ResultSelector` and redirect `ResultPath` to a second fresh draw. -/
def SFN.encode_loop (arns : List (String × String)) (fresh1 fresh2 : String)
    (state : Loop) : Except PyExc JVal := do
  let map_state : MapState := {
    name := state.name, func_name := state.func_name,
    array := state.array, next := state.next, common_params := none }
  let payload ← SFN.encode_map arns fresh1 map_state
  let payload := payload.set "MaxConcurrency" (.num 1)
  let payload := payload.set "ResultSelector" (.obj [])
  let payload := payload.set "ResultPath" (.str ("$." ++ fresh2))
  .ok payload

/-- `Generator.encode_state` dispatch for an `SFNGenerator`, threading the
index of the next `uuid.uuid4()` draw. Every registered encoder returns a
single fragment (`Sum.inl`); the list alternative mirrors the `Union`
return type of the source. -/
def SFN.encode_state (arns : List (String × String)) (supply : Nat → String)
    (i : Nat) (state : StateV) : Except PyExc ((JVal ⊕ List JVal) × Nat) :=
  match state with
  | .task t => (fun p => (Sum.inl p, i)) <$> SFN.encode_task arns t
  | .switch s => (fun p => (Sum.inl p, i)) <$> SFN.encode_switch s
  | .map m => (fun p => (Sum.inl p, i + 1)) <$> SFN.encode_map arns (supply i) m

/-- Encode a list of states in declaration order, threading the draw index. -/
def SFN.encode_each (arns : List (String × String)) (supply : Nat → String) :
    List StateV → Nat → Except PyExc (List (JVal ⊕ List JVal) × Nat)
  | [], i => .ok ([], i)
  | s :: rest, i => do
    let (p, i') ← SFN.encode_state arns supply i s
    let (ps, i'') ← SFN.encode_each arns supply rest i'
    .ok (p :: ps, i'')

/-- The accumulation loop of `Generator.generate`: `payloads.append(obj)`
for a dict, `payloads += obj` for a list. -/
def flattenEncoded (ps : List (JVal ⊕ List JVal)) : List JVal :=
  match ps with
  | [] => []
  | Sum.inl d :: rest => d :: flattenEncoded rest
  | Sum.inr l :: rest => l ++ flattenEncoded rest

/-- `list2dict(lst, key)`: re-index a fragment list by `key`, deleting the
key from each item; Python dictionary assignment semantics via `setKey`. -/
def list2dict (lst : List JVal) (key : String) :
    Except PyExc (List (String × JVal)) :=
  go lst []
where
  go : List JVal → List (String × JVal) → Except PyExc (List (String × JVal))
  | [], acc => .ok acc
  | item :: rest, acc => do
    match item with
    | .obj fs =>
      match lookupKey fs key with
      | some kv => go rest (setKey acc (jkey kv) (.obj (delKey fs key)))
      | none => .error (.keyError key)
    | _ => .error (.typeError "item is not subscriptable")

/-- The body of `SFNGenerator.postprocess`: re-index the payloads by
`Name`, re-index the `States` list inside each branch of a Parallel
fragment, then wrap with the document header pointing at the root state. -/
def SFN.postprocess_body (rootName : String) (payloads : List JVal) :
    Except PyExc JVal := do
  let state_payloads ← list2dict payloads "Name"
  let state_payloads ← mapME (fun nv => do
    match nv.2 with
    | .obj fs =>
      match lookupKey fs "Branches" with
      | some (.arr branches) => do
        let branches' ← mapME (fun branch => do
          match branch with
          | .obj bfs =>
            match lookupKey bfs "States" with
            | some (.arr sts) => do
              let d ← list2dict sts "Name"
              pure (JVal.obj (setKey bfs "States" (.obj d)))
            | some _ => Except.error (PyExc.typeError "States is not a list")
            | none => Except.error (PyExc.keyError "States")
          | _ => Except.error (PyExc.typeError "branch is not subscriptable")) branches
        pure (nv.1, JVal.obj (setKey fs "Branches" (.arr branches')))
      | some _ => Except.error (PyExc.typeError "Branches is not a list")
      | none => pure nv
    | _ => pure nv) state_payloads
  pure (.obj [
    ("Comment", .str "SeBS auto-generated benchmark"),
    ("StartAt", .str rootName),
    ("States", .obj state_payloads)])

/-- Positional arguments of a `self.postprocess(...)` call. -/
inductive PostprocessArgs where
  | one (payloads : List JVal) : PostprocessArgs
  | two (states : List StateV) (payloads : List JVal) : PostprocessArgs

/-- Calling `self.postprocess(...)` on an `SFNGenerator`: the override is
declared as `postprocess(self, payloads)`, so the two-argument call made by
the inherited `Generator.generate` raises `TypeError` before the body runs. -/
def SFN.postprocess (rootName : String) : PostprocessArgs → Except PyExc JVal
  | .one payloads => SFN.postprocess_body rootName payloads
  | .two _ _ =>
    .error (.typeError "postprocess() takes 2 positional arguments but 3 were given")

/-- JSON string escaping (quote and backslash; the generator emits no other
escapable characters). -/
def escapeStr (s : String) : String :=
  String.join (s.toList.map (fun c =>
    if c = '"' then "\\\"" else if c = '\\' then "\\\\" else String.singleton c))

mutual

/-- `json.dumps` with its default separators. -/
def dumps : JVal → String
  | .null => "null"
  | .bool b => if b then "true" else "false"
  | .num n => toString n
  | .str s => "\"" ++ escapeStr s ++ "\""
  | .arr xs => "[" ++ dumpsElems xs ++ "]"
  | .obj fs => "\x7b" ++ dumpsFields fs ++ "\x7d"

def dumpsElems : List JVal → String
  | [] => ""
  | [x] => dumps x
  | x :: y :: xs => dumps x ++ ", " ++ dumpsElems (y :: xs)

def dumpsFields : List (String × JVal) → String
  | [] => ""
  | [(k, v)] => "\"" ++ escapeStr k ++ "\": " ++ dumps v
  | (k, v) :: f :: fs =>
    "\"" ++ escapeStr k ++ "\": " ++ dumps v ++ ", " ++ dumpsFields (f :: fs)

end

/-- `Generator.generate` as inherited by `SFNGenerator`: encode every state
in declaration order, call `self.postprocess(states, payloads)` (two
positional arguments), export with `json.dumps`. -/
def SFN.generate (arns : List (String × String)) (supply : Nat → String)
    (rootName : String) (states : List (String × StateV)) :
    Except PyExc String := do
  let statesL := states.map Prod.snd
  let (encoded, _) ← SFN.encode_each arns supply statesL 0
  let payloads := flattenEncoded encoded
  let definition ← SFN.postprocess rootName (.two statesL payloads)
  .ok (dumps definition)

/-- `SFNGenerator.encode_parallel`, threading the draw index through the
branch encoders. The `ResultSelector` literal's keys are the two branch
names, distinct because `state.funcs` is a dictionary. -/
def SFN.encode_parallel (arns : List (String × String)) (supply : Nat → String)
    (i : Nat) (state : Parallel) : Except PyExc (JVal × Nat) := do
  let sts ← mapME (fun nv => State.deserialize nv.1 nv.2) state.funcs
  let (encoded, i') ← SFN.encode_each arns supply sts i
  let parallel_funcs ← mapME (fun f => do
    match f with
    | Sum.inl d =>
      match (← d.getE "Name") with
      | .str n => pure (d.set "ResultPath" (.str ("$." ++ n)))
      | _ => Except.error (PyExc.typeError "can only concatenate str")
    | Sum.inr _ =>
      Except.error (PyExc.typeError "list indices must be integers")) encoded
  match parallel_funcs with
  | f0 :: f1 :: _ => do
    let n0 ← (← f0.getE "Name").asStr
    let n1 ← (← f1.getE "Name").asStr
    let payload : JVal := .obj [
      ("Name", .str state.name),
      ("Type", .str "Parallel"),
      ("Branches", .arr [
        .obj [("StartAt", .str n0), ("States", .arr [f0])],
        .obj [("StartAt", .str n1), ("States", .arr [f1])]]),
      ("ResultSelector", .obj [
        ("payload", .obj [
          (n0 ++ ".$", .str ("$[0]." ++ n0)),
          (n1 ++ ".$", .str ("$[1]." ++ n1))]),
        ("request_id.$", .str "$[0].request_id")])]
    .ok (setNextOrEnd payload state.next, i')
  | _ => .error .indexError

/-! ## Triggers (`sebs/aws/triggers.py`, `sebs/azure/triggers.py`) -/

/-- `LibraryTrigger` (AWS): the logical function/workflow name plus an
optional deployment client (an opaque AWS session object, never persisted). -/
structure AWSLibraryTrigger where
  name : String
  deployment_client : Option Unit
deriving DecidableEq

/-- `LibraryTrigger.serialize`. -/
def AWSLibraryTrigger.serialize (t : AWSLibraryTrigger) : JVal :=
  .obj [("type", .str "Library"), ("name", .str t.name)]

/-- `LibraryTrigger.deserialize`: `cls(obj["name"])`, the deployment client
defaults to `None`. -/
def AWSLibraryTrigger.deserialize (obj : JVal) : Except PyExc AWSLibraryTrigger := do
  let n ← (← obj.getE "name").asStr
  .ok { name := n, deployment_client := none }

/-- `HTTPTrigger` (AWS): endpoint URL and API gateway id. -/
structure AWSHTTPTrigger where
  url : String
  api_id : String
deriving DecidableEq

/-- AWS `HTTPTrigger.serialize`. -/
def AWSHTTPTrigger.serialize (t : AWSHTTPTrigger) : JVal :=
  .obj [("type", .str "HTTP"), ("url", .str t.url), ("api-id", .str t.api_id)]

/-- AWS `HTTPTrigger.deserialize`. -/
def AWSHTTPTrigger.deserialize (obj : JVal) : Except PyExc AWSHTTPTrigger := do
  let u ← (← obj.getE "url").asStr
  let a ← (← obj.getE "api-id").asStr
  .ok { url := u, api_id := a }

/-- Modelled from the spec: `AzureResources.Storage` (`sebs/azure/config.py`
is outside the studied sources) — the storage-account resource handle whose
connection string the Azure HTTP trigger injects into every payload. -/
structure AzureStorageAccount where
  account_name : String
  connection_string : String
deriving DecidableEq

/-- `QueueType` discriminator (`sebs/faas/queue.py`). -/
inductive QueueType where
  | triggerQueue : QueueType
  | resultQueue : QueueType
deriving DecidableEq

/-- Modelled from the spec: `AzureQueue` (`sebs/azure/queue.py` is outside
the studied sources) — a queue resource handle built as
`AzureQueue(name, queue_type, storage_account, region)`, serializable to a
flat self-describing record that round-trips exactly, per the spec's
trigger persisted-record interface. -/
structure AzureQueue where
  name : String
  queue_type : QueueType
  storage_account : String
  region : String
deriving DecidableEq

/-- Modelled from the spec: `AzureQueue.serialize`. -/
def AzureQueue.serialize (q : AzureQueue) : JVal :=
  .obj [
    ("name", .str q.name),
    ("queue_type", .str (match q.queue_type with
      | .triggerQueue => "trigger"
      | .resultQueue => "result")),
    ("storage_account", .str q.storage_account),
    ("region", .str q.region)]

/-- Modelled from the spec: `AzureQueue.deserialize`. -/
def AzureQueue.deserialize (obj : JVal) : Except PyExc AzureQueue := do
  let n ← (← obj.getE "name").asStr
  let ty ← (← obj.getE "queue_type").asStr
  let acct ← (← obj.getE "storage_account").asStr
  let reg ← (← obj.getE "region").asStr
  .ok { name := n,
        queue_type := if ty = "trigger" then .triggerQueue else .resultQueue,
        storage_account := acct, region := reg }

/-- `HTTPTrigger` (Azure): endpoint URL plus the optional data storage
account attached by the deployment client. -/
structure AzureHTTPTrigger where
  url : String
  data_storage_account : Option AzureStorageAccount
deriving DecidableEq

/-- Azure `HTTPTrigger.serialize`: only `type` and `url` are persisted; the
data storage account is not part of the record. -/
def AzureHTTPTrigger.serialize (t : AzureHTTPTrigger) : JVal :=
  .obj [("type", .str "HTTP"), ("url", .str t.url)]

/-- Azure `HTTPTrigger.deserialize`: `HTTPTrigger(obj["url"])` leaves the
optional storage account at its `None` default. -/
def AzureHTTPTrigger.deserialize (obj : JVal) : Except PyExc AzureHTTPTrigger := do
  let u ← (← obj.getE "url").asStr
  .ok { url := u, data_storage_account := none }

/-- `QueueTrigger` (Azure) after construction. -/
structure AzureQueueTrigger where
  name : String
  storage_account : String
  region : String
  queue : AzureQueue
  result_queue : AzureQueue
deriving DecidableEq

/-- `QueueTrigger.__init__`: when a queue handle is not supplied, build it
from the function name and create it (the `create_queue` call provisions
the external resource and adds nothing to the handle). -/
def AzureQueueTrigger.init (fname storage_account region : String)
    (queue : Option AzureQueue) (result_queue : Option AzureQueue) :
    AzureQueueTrigger :=
  { name := fname, storage_account := storage_account, region := region,
    queue := queue.getD
      { name := fname, queue_type := .triggerQueue,
        storage_account := storage_account, region := region },
    result_queue := result_queue.getD
      { name := fname, queue_type := .resultQueue,
        storage_account := storage_account, region := region } }

/-- Azure `QueueTrigger.serialize`. -/
def AzureQueueTrigger.serialize (t : AzureQueueTrigger) : JVal :=
  .obj [
    ("type", .str "Queue"),
    ("name", .str t.name),
    ("storage_account", .str t.storage_account),
    ("region", .str t.region),
    ("queue", t.queue.serialize),
    ("result_queue", t.result_queue.serialize)]

/-- Azure `QueueTrigger.deserialize`. -/
def AzureQueueTrigger.deserialize (obj : JVal) : Except PyExc AzureQueueTrigger := do
  let n ← (← obj.getE "name").asStr
  let acct ← (← obj.getE "storage_account").asStr
  let reg ← (← obj.getE "region").asStr
  let q ← AzureQueue.deserialize (← obj.getE "queue")
  let rq ← AzureQueue.deserialize (← obj.getE "result_queue")
  .ok (AzureQueueTrigger.init n acct reg (some q) (some rq))

/-- `StorageTrigger` (Azure) after construction. -/
structure AzureStorageTrigger where
  name : String
  storage_account : String
  region : String
  result_queue : AzureQueue
  container_name : String
deriving DecidableEq

/-- `StorageTrigger.__init__`: a missing container name falls back to the
function name (and provisions the container externally); a missing result
queue is built from the function name. -/
def AzureStorageTrigger.init (fname storage_account region : String)
    (result_queue : Option AzureQueue) (container_name : Option String) :
    AzureStorageTrigger :=
  { name := fname, storage_account := storage_account, region := region,
    result_queue := result_queue.getD
      { name := fname, queue_type := .resultQueue,
        storage_account := storage_account, region := region },
    container_name := container_name.getD fname }

/-- Azure `StorageTrigger.serialize`. -/
def AzureStorageTrigger.serialize (t : AzureStorageTrigger) : JVal :=
  .obj [
    ("type", .str "Storage"),
    ("name", .str t.name),
    ("storage_account", .str t.storage_account),
    ("region", .str t.region),
    ("result_queue", t.result_queue.serialize),
    ("container_name", .str t.container_name)]

/-- Azure `StorageTrigger.deserialize`. -/
def AzureStorageTrigger.deserialize (obj : JVal) : Except PyExc AzureStorageTrigger := do
  let n ← (← obj.getE "name").asStr
  let acct ← (← obj.getE "storage_account").asStr
  let reg ← (← obj.getE "region").asStr
  let rq ← AzureQueue.deserialize (← obj.getE "result_queue")
  let cn ← (← obj.getE "container_name").asStr
  .ok (AzureStorageTrigger.init n acct reg (some rq) (some cn))

/-! ### Synchronous invocation denotations and the polling loops -/

/-- Observable transport events of a queue/storage synchronous invocation
(message and blob contents are abstracted; the claims concern ordering and
intervals). -/
inductive Ev where
  | sendMessage : Ev
  | uploadBlob : Ev
  | recvAttempt : Ev
  | sleepSecs (s : Nat) : Ev
deriving DecidableEq

/-- The polling loop of Azure `QueueTrigger.sync_invoke`:
`response = receive_message(); if response == "": sleep(5)` — a receive
attempt first, a 5-second sleep only after an empty receive. `r k` is the
k-th receive result; `fuel` bounds the attempts of this deadline-free loop. -/
def queuePoll (r : Nat → String) : Nat → Nat → List Ev × Option String
  | _, 0 => ([], none)
  | k, fuel + 1 =>
    if r k = "" then
      let rest := queuePoll r (k + 1) fuel
      (Ev.recvAttempt :: Ev.sleepSecs 5 :: rest.1, rest.2)
    else ([Ev.recvAttempt], some (r k))

/-- The polling loop of Azure `StorageTrigger.sync_invoke`:
`sleep(5); response = receive_message()` — a 5-second sleep before every
receive attempt, including the first. -/
def storagePoll (r : Nat → String) : Nat → Nat → List Ev × Option String
  | _, 0 => ([], none)
  | k, fuel + 1 =>
    if r k = "" then
      let rest := storagePoll r (k + 1) fuel
      (Ev.sleepSecs 5 :: Ev.recvAttempt :: rest.1, rest.2)
    else ([Ev.sleepSecs 5, Ev.recvAttempt], some (r k))

/-- Azure `QueueTrigger.sync_invoke`: publish the encoded payload to the
trigger queue, then poll the result queue. -/
def AzureQueueTrigger.sync_invoke (_t : AzureQueueTrigger) (_payload : JVal)
    (r : Nat → String) (fuel : Nat) : List Ev × Option String :=
  let p := queuePoll r 0 fuel
  (Ev.sendMessage :: p.1, p.2)

/-- Azure `StorageTrigger.sync_invoke`: upload the payload object to the
container, then poll the result queue. -/
def AzureStorageTrigger.sync_invoke (_t : AzureStorageTrigger) (_payload : JVal)
    (r : Nat → String) (fuel : Nat) : List Ev × Option String :=
  let p := storagePoll r 0 fuel
  (Ev.uploadBlob :: p.1, p.2)

/-- Denotation of the base-class `_http_invoke` (modelled from the spec:
"posts the payload to a fixed endpoint and times the full round trip"; the
base `Trigger` class is outside the studied sources): the posted request. -/
structure HttpCall where
  url : String
  payload : JVal

/-- AWS `HTTPTrigger.sync_invoke`: `self._http_invoke(payload, self.url)`. -/
def AWSHTTPTrigger.sync_invoke (t : AWSHTTPTrigger) (payload : JVal) : HttpCall :=
  { url := t.url, payload := payload }

/-- Azure `HTTPTrigger.sync_invoke`: inject the storage account's connection
string into the payload, then `_http_invoke`; the `data_storage_account`
property asserts that the account is attached. -/
def AzureHTTPTrigger.sync_invoke (t : AzureHTTPTrigger) (payload : JVal) :
    Except PyExc HttpCall :=
  match t.data_storage_account with
  | some acct =>
    .ok { url := t.url,
          payload := payload.set "connection_string" (.str acct.connection_string) }
  | none => .error .assertionError

/-! ### Asynchronous invocation -/

/-- Result of an `async_invoke` call: a thread-pool future wrapping a thunk
(`pool.submit`), a direct fire-and-forget `InvocationType="Event"` call, or
an exception raised at submission. -/
inductive AsyncOutcome (α : Type) where
  | offloaded (routine : Unit → α) : AsyncOutcome α
  | eventInvoked (fname : String) (payload : JVal) : AsyncOutcome α
  | raised (e : PyExc) : AsyncOutcome α

/-- Whether the handle wraps an offloaded routine. -/
def AsyncOutcome.isOffloaded {α : Type} : AsyncOutcome α → Bool
  | .offloaded _ => true
  | _ => false

/-- Joining a future returned by `pool.submit`. -/
def joinHandle {α : Type} : AsyncOutcome α → Option α
  | .offloaded f => some (f ())
  | _ => none

/-- `FunctionLibraryTrigger.async_invoke` (AWS): a direct lambda `invoke`
with `InvocationType="Event"` — no worker, no offloaded `sync_invoke`;
a non-202 status raises `RuntimeError`. `status` is the platform's reply. -/
def AWSFunctionLibraryTrigger.async_invoke (t : AWSLibraryTrigger)
    (payload : JVal) (status : Nat) : AsyncOutcome Unit :=
  if status = 202 then .eventInvoked t.name payload else .raised .runtimeError

/-- `WorkflowLibraryTrigger.async_invoke` (AWS): unconditionally raises
`NotImplementedError`. -/
def AWSWorkflowLibraryTrigger.async_invoke (_t : AWSLibraryTrigger)
    (_payload : JVal) : AsyncOutcome Unit :=
  .raised (.notImplementedError "Async invocation is not implemented")

/-- AWS `HTTPTrigger.async_invoke`: `pool.submit(self.sync_invoke, payload)`. -/
def AWSHTTPTrigger.async_invoke (t : AWSHTTPTrigger) (payload : JVal) :
    AsyncOutcome HttpCall :=
  .offloaded (fun _ => t.sync_invoke payload)

/-- Azure `HTTPTrigger.async_invoke`: `pool.submit(self.sync_invoke, payload)`. -/
def AzureHTTPTrigger.async_invoke (t : AzureHTTPTrigger) (payload : JVal) :
    AsyncOutcome (Except PyExc HttpCall) :=
  .offloaded (fun _ => t.sync_invoke payload)

/-- Azure `QueueTrigger.async_invoke`: `pool.submit(self.sync_invoke, payload)`. -/
def AzureQueueTrigger.async_invoke (t : AzureQueueTrigger) (payload : JVal) :
    AsyncOutcome ((Nat → String) → Nat → List Ev × Option String) :=
  .offloaded (fun _ => t.sync_invoke payload)

/-- Azure `StorageTrigger.async_invoke`: `pool.submit(self.sync_invoke, payload)`. -/
def AzureStorageTrigger.async_invoke (t : AzureStorageTrigger) (payload : JVal) :
    AsyncOutcome ((Nat → String) → Nat → List Ev × Option String) :=
  .offloaded (fun _ => t.sync_invoke payload)

/-! ## Statement-side helpers -/

/-- Render an encoding result for byte-level comparison (`json.dumps` on
success). -/
def dumpsOf (e : Except PyExc JVal) : String :=
  match e with
  | .ok v => dumps v
  | .error _ => "raised"

/-- Remove one top-level field of a fragment (used to state which fields
depend on the fresh UUID draws). -/
def eraseKey (k : String) (j : JVal) : JVal :=
  match j with
  | .obj fs => .obj (delKey fs k)
  | other => other

/-! ## Helper lemmas -/

/-- Reduction of monadic bind on an `Except.ok`. -/
theorem exc_bind_ok {α β : Type} (a : α) (f : α → Except PyExc β) :
    (Except.ok a >>= f) = f a := rfl

/-- Reduction of monadic bind on an `Except.error`. -/
theorem exc_bind_error {α β : Type} (e : PyExc) (f : α → Except PyExc β) :
    ((Except.error e : Except PyExc α) >>= f) = Except.error e := rfl

/-- Reduction of `Except.map` on an `Except.ok`. -/
theorem exc_map_ok {α β : Type} (f : α → β) (a : α) :
    (Except.ok a : Except PyExc α).map f = .ok (f a) := rfl

/-- Reduction of `Except.map` on an `Except.error`. -/
theorem exc_map_error {α β : Type} (f : α → β) (e : PyExc) :
    (Except.error e : Except PyExc α).map f = .error e := rfl

/-- `mapME` fails whenever some element fails. -/
theorem mapME_error_of_mem {α β : Type} (f : α → Except PyExc β) {l : List α}
    {x : α} {e0 : PyExc} (hx : x ∈ l) (hf : f x = .error e0) :
    ∃ e, mapME f l = Except.error e := by
  induction l with
  | nil => cases hx
  | cons a l ih =>
    rcases List.mem_cons.mp hx with h | h
    · subst h
      exact ⟨e0, by simp [mapME, hf, exc_bind_error]⟩
    · cases ha : f a with
      | error e => exact ⟨e, by simp [mapME, ha, exc_bind_error]⟩
      | ok b =>
        obtain ⟨e, he⟩ := ih h
        exact ⟨e, by simp [mapME, ha, he, exc_bind_ok, exc_bind_error]⟩

/-- `SFNGenerator.generate` can never return a document: when every state
encodes, the inherited two-argument `postprocess` call raises `TypeError`. -/
theorem SFN.generate_isOk_false (arns : List (String × String))
    (supply : Nat → String) (rootName : String)
    (states : List (String × StateV)) :
    (SFN.generate arns supply rootName states).isOk = false := by
  rw [SFN.generate]
  cases h : SFN.encode_each arns supply (states.map Prod.snd) 0 with
  | error e => rfl
  | ok pr => cases pr; rfl

/-- If some state of the list is a `Task` whose `func_name` the resolution
map does not contain, the encode loop fails at whatever draw index it is
reached with. -/
theorem encode_each_error_of_unresolved_task (arns : List (String × String))
    (supply : Nat → String) {l : List StateV} {t : Task}
    (hmem : StateV.task t ∈ l) (hun : lookupArn arns t.func_name = none) :
    ∀ i, ∃ e, SFN.encode_each arns supply l i = .error e := by
  induction l with
  | nil => cases hmem
  | cons s rest ih =>
    intro i
    rcases List.mem_cons.mp hmem with h | h
    · subst h
      refine ⟨.keyError t.func_name, ?_⟩
      rw [SFN.encode_each]
      simp only [SFN.encode_state, SFN.encode_task, hun]
      rfl
    · cases hs : SFN.encode_state arns supply i s with
      | error e =>
        refine ⟨e, ?_⟩
        rw [SFN.encode_each]
        simp only [hs]
        rfl
      | ok pr =>
        cases pr with
        | mk p i' =>
          obtain ⟨e, he⟩ := ih h i'
          refine ⟨e, ?_⟩
          simp only [SFN.encode_each, hs, exc_bind_ok, he, exc_bind_error]

/-- C4: for every parsed workflow graph, `SFNGenerator.generate()` returns
no document; and whenever the per-state encoding loop succeeds, the call
`self.postprocess(states, payloads)` made by the inherited
`Generator.generate` hits the one-payload-argument override and raises
`TypeError`. -/
theorem c4_generate_raises_type_error :
    ∀ (arns : List (String × String)) (supply : Nat → String)
      (rootName : String) (states : List (String × StateV)),
      (SFN.generate arns supply rootName states).isOk = false ∧
      (∀ encoded n,
        SFN.encode_each arns supply (states.map Prod.snd) 0 = .ok (encoded, n) →
        SFN.generate arns supply rootName states =
          .error (.typeError "postprocess() takes 2 positional arguments but 3 were given")) := by
  intro arns supply rootName states
  refine ⟨SFN.generate_isOk_false arns supply rootName states, ?_⟩
  intro encoded n h
  rw [SFN.generate]
  simp only [h]
  rfl

/-- Witness for C4: a one-task graph whose encoding succeeds, on which
`generate` raises the postprocess arity `TypeError`. -/
theorem c4_witness :
    SFN.generate [("f", "arn:f")] (fun _ => "abcd1234") "T"
        [("T", .task ⟨"T", "f", none⟩)] =
      .error (.typeError "postprocess() takes 2 positional arguments but 3 were given") :=
  (c4_generate_raises_type_error [("f", "arn:f")] (fun _ => "abcd1234") "T"
    [("T", .task ⟨"T", "f", none⟩)]).2
    [Sum.inl (.obj [
      ("Name", .str "T"), ("Type", .str "Task"), ("Resource", .str "arn:f"),
      ("Parameters", .obj [
        ("request_id.$", .str "$.request_id"),
        ("payload.$", .str "$.payload")]),
      ("ResultPath", .str "$.payload"), ("End", .bool true)])] 0 rfl

/-- C2: a workflow graph containing a `Task` whose `func_name` is not a key
of the resolution map makes `generate()` raise — `encode_task`'s failed
`func_arns` subscript is the `KeyError` realizing the spec's
`ReferenceError`/`UnresolvedFunctionReference` taxonomy class — and no wire
document (not even a partial one) is emitted: the encode loop already
fails, so the export step is never reached. -/
theorem c2_unresolved_task_fails_fast :
    ∀ (arns : List (String × String)) (supply : Nat → String)
      (rootName : String) (states : List (String × StateV)) (t : Task),
      StateV.task t ∈ states.map Prod.snd →
      lookupArn arns t.func_name = none →
      SFN.encode_task arns t = .error (.keyError t.func_name) ∧
      (∃ e, SFN.encode_each arns supply (states.map Prod.snd) 0 = .error e) ∧
      ∀ doc, SFN.generate arns supply rootName states ≠ .ok doc := by
  intro arns supply rootName states t hmem hun
  refine ⟨?_, encode_each_error_of_unresolved_task arns supply hmem hun 0, ?_⟩
  · simp only [SFN.encode_task, hun]
    rfl
  · intro doc hdoc
    have := SFN.generate_isOk_false arns supply rootName states
    rw [hdoc] at this
    simp [Except.isOk, Except.toBool] at this

/-- Witness for C2: a graph whose single task references the unresolved
name `missing`. -/
theorem c2_witness :
    SFN.encode_task [("f", "arn:f")] ⟨"T", "missing", none⟩ =
        .error (.keyError "missing") ∧
      (∃ e, SFN.encode_each [("f", "arn:f")] (fun _ => "abcd1234")
        ([("T", StateV.task ⟨"T", "missing", none⟩)].map Prod.snd) 0 = .error e) ∧
      ∀ doc, SFN.generate [("f", "arn:f")] (fun _ => "abcd1234") "T"
        [("T", StateV.task ⟨"T", "missing", none⟩)] ≠ .ok doc :=
  c2_unresolved_task_fails_fast [("f", "arn:f")] (fun _ => "abcd1234") "T"
    [("T", StateV.task ⟨"T", "missing", none⟩)] ⟨"T", "missing", none⟩
    (List.mem_singleton.mpr rfl) rfl

/-- A successful optimistic read implies the raising read succeeds. -/
theorem getE_eq_ok_of_get {j : JVal} {k : String} {v : JVal}
    (h : j.get k = some v) : j.getE k = .ok v := by
  cases j <;> simp [JVal.get] at h
  case obj => simp [JVal.getE, h]

/-- C3: `parse` fails on a state document whose `type` tag is outside
`{task, switch, map}` — the `_STATE_TYPES[payload["type"]]` lookup raises
`KeyError` on the tag — and fails with a `KeyError` on the root name when
`root` does not name a state of the `states` mapping (both are the
parse-time failures the spec's taxonomy calls `DefinitionError`). -/
theorem c3_parse_definition_errors :
    (∀ (docs : List (String × JVal)) (rootVal : JVal) (n : String)
        (doc : JVal) (tag : String),
      (n, doc) ∈ docs →
      doc.get "type" = some (.str tag) →
      tag ≠ "task" → tag ≠ "switch" → tag ≠ "map" →
      State.deserialize n doc = .error (.keyError tag) ∧
      ∃ e, Generator.parse (.obj [("states", .obj docs), ("root", rootVal)]) =
        .error e) ∧
    (∀ (docs : List (String × JVal)) (states : List (String × StateV))
        (rootName : String),
      parseStates docs = .ok states →
      lookupState states rootName = none →
      Generator.parse (.obj [("states", .obj docs), ("root", .str rootName)]) =
        .error (.keyError rootName)) := by
  constructor
  · intro docs rootVal n doc tag hmem hget htask hsw hmap
    have hdes : State.deserialize n doc = .error (.keyError tag) := by
      rw [State.deserialize]
      rw [getE_eq_ok_of_get hget]
      simp [exc_bind_ok, jkey, htask, hsw, hmap]
    refine ⟨hdes, ?_⟩
    have hf : (fun nv : String × JVal => do
        let s ← State.deserialize nv.1 nv.2
        pure (nv.1, s)) (n, doc) = (.error (.keyError tag) : Except PyExc (String × StateV)) := by
      simp [hdes, exc_bind_error]
    obtain ⟨e, he⟩ := mapME_error_of_mem
      (fun nv : String × JVal => do
        let s ← State.deserialize nv.1 nv.2
        pure (nv.1, s)) hmem hf
    refine ⟨e, ?_⟩
    have he' : parseStates docs = Except.error e := he
    simp [Generator.parse, JVal.getE, lookupKey, he', exc_bind_ok, exc_bind_error]
  · intro docs states rootName h1 h2
    simp [Generator.parse, JVal.getE, lookupKey, h1, exc_bind_ok, jkey, h2]

/-- Witness for C3: a definition with an unregistered `parallel` tag, and a
definition whose root `Z` names no state. -/
theorem c3_witness :
    (State.deserialize "S" (.obj [("type", .str "parallel")]) =
        .error (.keyError "parallel") ∧
      ∃ e, Generator.parse (.obj [
          ("states", .obj [("S", .obj [("type", .str "parallel")])]),
          ("root", .str "S")]) = .error e) ∧
      Generator.parse (.obj [
          ("states", .obj [("S", .obj [("type", .str "task"), ("func_name", .str "f")])]),
          ("root", .str "Z")]) = .error (.keyError "Z") :=
  ⟨c3_parse_definition_errors.1 [("S", .obj [("type", .str "parallel")])]
      (.str "S") "S" (.obj [("type", .str "parallel")]) "parallel"
      (List.mem_singleton.mpr rfl) rfl
      (by decide) (by decide) (by decide),
    c3_parse_definition_errors.2
      [("S", .obj [("type", .str "task"), ("func_name", .str "f")])]
      [("S", .task ⟨"S", "f", none⟩)] "Z" rfl rfl⟩

/-- C1 fails on the code: `encode_map` bakes a fresh `uuid.uuid4()` draw
into the iterator's inner state name, so the same Map state under the same
resolution map encodes to different byte strings on two calls drawing
different UUIDs. -/
theorem c1_counterexample :
    dumpsOf (SFN.encode_map [("f", "arn:f")] "aaaaaaaa"
        ⟨"M", "f", "xs", none, none⟩) ≠
      dumpsOf (SFN.encode_map [("f", "arn:f")] "bbbbbbbb"
        ⟨"M", "f", "xs", none, none⟩) := by
  set_option maxRecDepth 10000 in decide

/-- C1 amended: the encoded output of a Map or Loop state is a
deterministic function of the state, the resolution map and the drawn
fresh identifiers, and only the iterator's inner state name (for Loop,
also the discarded `ResultPath` target) depends on the draws: erasing
those fields makes the encodings of any two draws coincide. Task and
Switch encodings (`SFN.encode_task`, `SFN.encode_switch`) take no draw at
all, so `generate` is deterministic once the drawn UUIDs are fixed. -/
theorem c1_amended_deterministic_modulo_fresh :
    ∀ (arns : List (String × String)) (st : MapState) (lp : Loop)
      (u v u1 u2 v1 v2 : String),
      (SFN.encode_map arns u st).map (eraseKey "Iterator") =
        (SFN.encode_map arns v st).map (eraseKey "Iterator") ∧
      (SFN.encode_loop arns u1 u2 lp).map
          (fun j => eraseKey "ResultPath" (eraseKey "Iterator" j)) =
        (SFN.encode_loop arns v1 v2 lp).map
          (fun j => eraseKey "ResultPath" (eraseKey "Iterator" j)) := by
  intro arns st lp u v u1 u2 v1 v2
  constructor
  · cases h : lookupArn arns st.func_name with
    | none =>
      simp [SFN.encode_map, h, exc_bind_error, exc_map_error]
    | some r =>
      cases hn : st.next with
      | none =>
        simp [SFN.encode_map, h, hn, setNextOrEnd, JVal.set, setKey, eraseKey,
          delKey, exc_bind_ok, exc_map_ok]
      | some nxt =>
        by_cases hne : (nxt == "") = true <;>
          simp [SFN.encode_map, h, hn, setNextOrEnd, hne, JVal.set, setKey,
            eraseKey, delKey, exc_bind_ok, exc_map_ok]
  · cases h : lookupArn arns lp.func_name with
    | none =>
      simp [SFN.encode_loop, SFN.encode_map, h, exc_bind_error, exc_map_error]
    | some r =>
      cases hn : lp.next with
      | none =>
        simp [SFN.encode_loop, SFN.encode_map, h, hn, setNextOrEnd, JVal.set,
          setKey, eraseKey, delKey, exc_bind_ok, exc_map_ok]
      | some nxt =>
        by_cases hne : (nxt == "") = true <;>
          simp [SFN.encode_loop, SFN.encode_map, h, hn, setNextOrEnd, hne,
            JVal.set, setKey, eraseKey, delKey, exc_bind_ok, exc_map_ok]

/-- C8: `encode_map` without `common_params` passes the raw array element
(`$$.Map.Item.Value`) as the per-iteration payload; with
`common_params = "x"` (the spec's `["x"]` example) the per-iteration payload
becomes `{array_element: element, x: parent payload's x}`; and for every
`common_params` value the iteration result is written back
(`ResultPath`) to exactly the array path that was iterated over
(`ItemsPath`). -/
theorem c8_map_payload_shaping :
    ∀ (arns : List (String × String)) (fresh nm fn arrayPath r : String)
      (nxt : Option String),
      lookupArn arns fn = some r →
      ((SFN.encode_map arns fresh ⟨nm, fn, arrayPath, nxt, none⟩).map
          (fun p => p.get "Parameters") =
        .ok (some (.obj [
          ("request_id.$", .str "$.request_id"),
          ("payload.$", .str "$$.Map.Item.Value")]))) ∧
      ((SFN.encode_map arns fresh ⟨nm, fn, arrayPath, nxt, some "x"⟩).map
          (fun p => p.get "Parameters") =
        .ok (some (.obj [
          ("request_id.$", .str "$.request_id"),
          ("payload", .obj [
            ("array_element.$", .str "$$.Map.Item.Value"),
            ("x.$", .str "$.payload.x")])]))) ∧
      (∀ cp : Option String,
        (SFN.encode_map arns fresh ⟨nm, fn, arrayPath, nxt, cp⟩).map
            (fun p => (p.get "ItemsPath", p.get "ResultPath")) =
          .ok (some (.str ("$.payload." ++ arrayPath)),
               some (.str ("$.payload." ++ arrayPath)))) := by
  intro arns fresh nm fn arrayPath r nxt h
  refine ⟨?_, ?_, ?_⟩
  · cases nxt with
    | none =>
      simp [SFN.encode_map, h, truthy, setNextOrEnd, JVal.set, setKey,
        JVal.get, lookupKey, exc_bind_ok, exc_map_ok]
    | some nxt =>
      by_cases hne : (nxt == "") = true <;>
        simp [SFN.encode_map, h, truthy, setNextOrEnd, hne, JVal.set, setKey,
          JVal.get, lookupKey, exc_bind_ok, exc_map_ok]
  · cases nxt with
    | none =>
      simp [SFN.encode_map, h, truthy, setNextOrEnd, JVal.set, setKey,
        JVal.get, lookupKey, exc_bind_ok, exc_map_ok]
      rfl
    | some nxt =>
      by_cases hne : (nxt == "") = true <;>
        (simp [SFN.encode_map, h, truthy, setNextOrEnd, hne, JVal.set, setKey,
          JVal.get, lookupKey, exc_bind_ok, exc_map_ok];
         rfl)
  · intro cp
    cases nxt with
    | none =>
      by_cases ht : truthy cp <;>
        simp [SFN.encode_map, h, ht, setNextOrEnd, JVal.set, setKey,
          JVal.get, lookupKey, exc_bind_ok, exc_map_ok]
    | some nxt =>
      by_cases ht : truthy cp <;> by_cases hne : (nxt == "") = true <;>
        simp [SFN.encode_map, h, ht, setNextOrEnd, hne, JVal.set, setKey,
          JVal.get, lookupKey, exc_bind_ok, exc_map_ok]

/-- Witness for C8 at a concrete resolvable map state. -/
theorem c8_witness :
    ((SFN.encode_map [("f", "arn:f")] "abcd1234" ⟨"M", "f", "xs", none, none⟩).map
        (fun p => p.get "Parameters") =
      .ok (some (.obj [
        ("request_id.$", .str "$.request_id"),
        ("payload.$", .str "$$.Map.Item.Value")]))) ∧
      ((SFN.encode_map [("f", "arn:f")] "abcd1234" ⟨"M", "f", "xs", none, some "x"⟩).map
          (fun p => p.get "Parameters") =
        .ok (some (.obj [
          ("request_id.$", .str "$.request_id"),
          ("payload", .obj [
            ("array_element.$", .str "$$.Map.Item.Value"),
            ("x.$", .str "$.payload.x")])]))) ∧
      (∀ cp : Option String,
        (SFN.encode_map [("f", "arn:f")] "abcd1234" ⟨"M", "f", "xs", none, cp⟩).map
            (fun p => (p.get "ItemsPath", p.get "ResultPath")) =
          .ok (some (.str "$.payload.xs"), some (.str "$.payload.xs"))) :=
  c8_map_payload_shaping [("f", "arn:f")] "abcd1234" "M" "f" "xs" "arn:f" none rfl

/-- C9: `encode_loop` always emits `MaxConcurrency = 1` — the fragment is a
function of the state alone, independent of any array length — empties the
`ResultSelector` (the per-iteration result is discarded, not merged), and
redirects `ResultPath` to `$.<fresh draw>`, a freshly generated output
location, instead of the iterated `ItemsPath` array. -/
theorem c9_loop_sequential_and_discarded :
    ∀ (arns : List (String × String)) (u1 u2 nm fn arrayPath r : String)
      (nxt : Option String),
      lookupArn arns fn = some r →
      (SFN.encode_loop arns u1 u2 ⟨nm, fn, arrayPath, nxt⟩).map
          (fun p => (p.get "MaxConcurrency", p.get "ResultSelector",
                     p.get "ResultPath", p.get "ItemsPath")) =
        .ok (some (.num 1), some (.obj []),
             some (.str ("$." ++ u2)), some (.str ("$.payload." ++ arrayPath))) := by
  intro arns u1 u2 nm fn arrayPath r nxt h
  cases nxt with
  | none =>
    simp [SFN.encode_loop, SFN.encode_map, h, truthy, setNextOrEnd, JVal.set,
      setKey, JVal.get, lookupKey, exc_bind_ok, exc_map_ok]
  | some nxt =>
    by_cases hne : (nxt == "") = true <;>
      simp [SFN.encode_loop, SFN.encode_map, h, truthy, setNextOrEnd, hne,
        JVal.set, setKey, JVal.get, lookupKey, exc_bind_ok, exc_map_ok]

/-- Witness for C9 at a concrete resolvable loop state. -/
theorem c9_witness :
    (SFN.encode_loop [("f", "arn:f")] "aaaaaaaa" "bbbbbbbb"
        ⟨"L", "f", "xs", none⟩).map
        (fun p => (p.get "MaxConcurrency", p.get "ResultSelector",
                   p.get "ResultPath", p.get "ItemsPath")) =
      .ok (some (.num 1), some (.obj []),
           some (.str "$.bbbbbbbb"), some (.str "$.payload.xs")) :=
  c9_loop_sequential_and_discarded [("f", "arn:f")] "aaaaaaaa" "bbbbbbbb"
    "L" "f" "xs" "arn:f" none rfl

/-- A one-task branch document `{"type": "task", "func_name": fn}` as fed
to `encode_parallel` through `Parallel.funcs`. -/
def taskBranchDoc (fn : String) : JVal :=
  .obj [("type", .str "task"), ("func_name", .str fn)]

/-- The encoded sub-pipeline state of a task branch named `n` resolving to
`r`, after `encode_parallel` redirected its `ResultPath` to `$.n`. -/
def branchFragment (n r : String) : JVal :=
  .obj [
    ("Name", .str n),
    ("Type", .str "Task"),
    ("Resource", .str r),
    ("Parameters", .obj [
      ("request_id.$", .str "$.request_id"),
      ("payload.$", .str "$.payload")]),
    ("ResultPath", .str ("$." ++ n)),
    ("End", .bool true)]

/-- The Parallel fragment `encode_parallel` emits for first branch `(a, ra)`
and second branch `(b, rb)`: outputs merged into an object keyed by the two
branch names, routing metadata (`request_id`) copied from branch one only. -/
def parallelFragment (nm a ra b rb : String) (nxt : Option String) : JVal :=
  setNextOrEnd (.obj [
    ("Name", .str nm),
    ("Type", .str "Parallel"),
    ("Branches", .arr [
      .obj [("StartAt", .str a), ("States", .arr [branchFragment a ra])],
      .obj [("StartAt", .str b), ("States", .arr [branchFragment b rb])]]),
    ("ResultSelector", .obj [
      ("payload", .obj [
        (a ++ ".$", .str ("$[0]." ++ a)),
        (b ++ ".$", .str ("$[1]." ++ b))]),
      ("request_id.$", .str "$[0].request_id")])]) nxt

/-- C7 fails on the code for branch counts above two: `encode_parallel`
subscripts only `parallel_funcs[0]` and `parallel_funcs[1]`, so a
three-branch Parallel state encodes successfully — the third branch is
silently dropped (the emitted fragment keeps exactly two branches) instead
of failing. -/
theorem c7_counterexample :
    ((SFN.encode_parallel [("f", "arn:f"), ("g", "arn:g"), ("h", "arn:h")]
        (fun _ => "u") 0
        ⟨"P", [("A", taskBranchDoc "f"), ("B", taskBranchDoc "g"),
               ("C", taskBranchDoc "h")], none⟩).isOk = true) ∧
      ((SFN.encode_parallel [("f", "arn:f"), ("g", "arn:g"), ("h", "arn:h")]
          (fun _ => "u") 0
          ⟨"P", [("A", taskBranchDoc "f"), ("B", taskBranchDoc "g"),
                 ("C", taskBranchDoc "h")], none⟩).map
          (fun pr => match pr.1.get "Branches" with
            | some (.arr l) => l.length
            | _ => 0) = .ok 2) :=
  ⟨rfl, rfl⟩

/-- C7 amended: with exactly two branches `A` and `B`, `encode_parallel`
merges the branch outputs into an object keyed by `A` and `B` and copies
the request identifier only from branch `A`; with fewer than two branches
encoding fails (`IndexError`); with more than two branches it does not
fail but silently keeps only the first two. -/
theorem c7_amended_parallel_two_branches :
    ∀ (arns : List (String × String)) (supply : Nat → String) (i : Nat)
      (nm a b fa fb ra rb : String) (nxt : Option String),
      lookupArn arns fa = some ra →
      lookupArn arns fb = some rb →
      (SFN.encode_parallel arns supply i
          ⟨nm, [(a, taskBranchDoc fa), (b, taskBranchDoc fb)], nxt⟩ =
        .ok (parallelFragment nm a ra b rb nxt, i)) ∧
      (SFN.encode_parallel arns supply i ⟨nm, [(a, taskBranchDoc fa)], nxt⟩ =
        .error .indexError) ∧
      (∀ (c fc rc : String), lookupArn arns fc = some rc →
        SFN.encode_parallel arns supply i
            ⟨nm, [(a, taskBranchDoc fa), (b, taskBranchDoc fb),
                  (c, taskBranchDoc fc)], nxt⟩ =
          .ok (parallelFragment nm a ra b rb nxt, i)) := by
  intro arns supply i nm a b fa fb ra rb nxt ha hb
  refine ⟨?_, ?_, ?_⟩
  · simp [SFN.encode_parallel, taskBranchDoc, State.deserialize, Task.deserialize,
      getOptStr, SFN.encode_each, SFN.encode_state, SFN.encode_task, ha, hb,
      mapME, JVal.getE, JVal.get, JVal.asStr, JVal.set, setKey, lookupKey, jkey,
      exc_bind_ok, exc_bind_error, exc_map_ok, parallelFragment, branchFragment,
      setNextOrEnd]
  · simp [SFN.encode_parallel, taskBranchDoc, State.deserialize, Task.deserialize,
      getOptStr, SFN.encode_each, SFN.encode_state, SFN.encode_task, ha,
      mapME, JVal.getE, JVal.get, JVal.asStr, JVal.set, setKey, lookupKey, jkey,
      exc_bind_ok, exc_bind_error, exc_map_ok, setNextOrEnd]
  · intro c fc rc hc
    simp [SFN.encode_parallel, taskBranchDoc, State.deserialize, Task.deserialize,
      getOptStr, SFN.encode_each, SFN.encode_state, SFN.encode_task, ha, hb, hc,
      mapME, JVal.getE, JVal.get, JVal.asStr, JVal.set, setKey, lookupKey, jkey,
      exc_bind_ok, exc_bind_error, exc_map_ok, parallelFragment, branchFragment,
      setNextOrEnd]

/-- Witness for C7 at concrete resolvable branches. -/
theorem c7_witness :
    (SFN.encode_parallel [("f", "arn:f"), ("g", "arn:g")] (fun _ => "u") 0
        ⟨"P", [("A", taskBranchDoc "f"), ("B", taskBranchDoc "g")], none⟩ =
      .ok (parallelFragment "P" "A" "arn:f" "B" "arn:g" none, 0)) ∧
      SFN.encode_parallel [("f", "arn:f"), ("g", "arn:g")] (fun _ => "u") 0
          ⟨"P", [("A", taskBranchDoc "f")], none⟩ = .error .indexError :=
  ⟨(c7_amended_parallel_two_branches [("f", "arn:f"), ("g", "arn:g")]
      (fun _ => "u") 0 "P" "A" "B" "f" "g" "arn:f" "arn:g" none rfl rfl).1,
    (c7_amended_parallel_two_branches [("f", "arn:f"), ("g", "arn:g")]
      (fun _ => "u") 0 "P" "A" "B" "f" "g" "arn:f" "arn:g" none rfl rfl).2.1⟩

/-- C5 fails on the code: the Azure HTTP trigger's `data_storage_account`
— a storage-account resource handle used by every `sync_invoke` — is not
part of the persisted record, so `deserialize(serialize(t))` reconstructs
the trigger with the handle absent rather than identical. -/
theorem c5_counterexample :
    (AzureHTTPTrigger.deserialize (AzureHTTPTrigger.serialize
        ⟨"https://fn.azurewebsites.net", some ⟨"acct", "conn-string"⟩⟩)).toOption ≠
      some ⟨"https://fn.azurewebsites.net", some ⟨"acct", "conn-string"⟩⟩ ∧
    (AzureHTTPTrigger.deserialize (AzureHTTPTrigger.serialize
        ⟨"https://fn.azurewebsites.net", some ⟨"acct", "conn-string"⟩⟩)).toOption =
      some ⟨"https://fn.azurewebsites.net", none⟩ := by
  exact ⟨by decide, rfl⟩

/-- C5 amended: every trigger variant's persisted record round-trips
exactly and deserialization reconstructs every persisted field identically
— the logical target name and the serialized resource handles (queue
handles, container names, storage-account names) — but fields outside the
record are reconstructed absent: the AWS library trigger's deployment
client and the Azure HTTP trigger's data storage account (for the latter
the record still round-trips byte-identically). -/
theorem c5_amended_roundtrip :
    (∀ t : AWSLibraryTrigger,
      (AWSLibraryTrigger.deserialize t.serialize).toOption = some ⟨t.name, none⟩) ∧
    (∀ t : AWSHTTPTrigger,
      (AWSHTTPTrigger.deserialize t.serialize).toOption = some t) ∧
    (∀ t : AzureHTTPTrigger,
      (AzureHTTPTrigger.deserialize t.serialize).toOption = some ⟨t.url, none⟩ ∧
      AzureHTTPTrigger.serialize ⟨t.url, none⟩ = t.serialize) ∧
    (∀ t : AzureQueueTrigger,
      (AzureQueueTrigger.deserialize t.serialize).toOption = some t) ∧
    (∀ t : AzureStorageTrigger,
      (AzureStorageTrigger.deserialize t.serialize).toOption = some t) := by
  refine ⟨?_, ?_, ?_, ?_, ?_⟩
  · intro t
    simp [AWSLibraryTrigger.serialize, AWSLibraryTrigger.deserialize,
      JVal.getE, JVal.asStr, lookupKey, exc_bind_ok, Except.toOption]
  · intro t
    cases t
    simp [AWSHTTPTrigger.serialize, AWSHTTPTrigger.deserialize,
      JVal.getE, JVal.asStr, lookupKey, exc_bind_ok, Except.toOption]
  · intro t
    exact ⟨by simp [AzureHTTPTrigger.serialize, AzureHTTPTrigger.deserialize,
        JVal.getE, JVal.asStr, lookupKey, exc_bind_ok, Except.toOption], rfl⟩
  · intro t
    cases t with
    | mk n acct reg q rq =>
      cases q with
      | mk qn qt qa qr =>
        cases rq with
        | mk rn rt ra rr =>
          cases qt <;> cases rt <;>
            simp [AzureQueueTrigger.serialize, AzureQueueTrigger.deserialize,
              AzureQueue.serialize, AzureQueue.deserialize,
              AzureQueueTrigger.init, JVal.getE, JVal.asStr, lookupKey,
              exc_bind_ok, Except.toOption]
  · intro t
    cases t with
    | mk n acct reg rq cn =>
      cases rq with
      | mk rn rt ra rr =>
        cases rt <;>
          simp [AzureStorageTrigger.serialize, AzureStorageTrigger.deserialize,
            AzureQueue.serialize, AzureQueue.deserialize,
            AzureStorageTrigger.init, JVal.getE, JVal.asStr, lookupKey,
            exc_bind_ok, Except.toOption]

/-- C6 fails on the code: the AWS `WorkflowLibraryTrigger` raises
`NotImplementedError` from `async_invoke` instead of offloading
`sync_invoke`, and the AWS `FunctionLibraryTrigger` performs a direct
fire-and-forget `InvocationType="Event"` call — neither returns a handle
wrapping the synchronous routine. -/
theorem c6_counterexample :
    AWSWorkflowLibraryTrigger.async_invoke ⟨"machine", none⟩ (.obj []) =
        .raised (.notImplementedError "Async invocation is not implemented") ∧
      (AWSWorkflowLibraryTrigger.async_invoke ⟨"machine", none⟩ (.obj [])).isOffloaded
          = false ∧
      (AWSFunctionLibraryTrigger.async_invoke ⟨"fn", none⟩ (.obj []) 202).isOffloaded
          = false :=
  ⟨rfl, rfl, rfl⟩

/-- C6 amended: the HTTP (AWS and Azure), Queue and Storage trigger
variants offload exactly the synchronous `sync_invoke` routine to a worker
— joining the returned handle yields precisely `sync_invoke`'s result —
while the AWS library variants do not: `FunctionLibraryTrigger` fires a
direct asynchronous Event invocation (never an offloaded routine) and
`WorkflowLibraryTrigger` raises `NotImplementedError`. -/
theorem c6_amended_offloading :
    (∀ (t : AWSHTTPTrigger) (p : JVal),
      joinHandle (t.async_invoke p) = some (t.sync_invoke p)) ∧
    (∀ (t : AzureHTTPTrigger) (p : JVal),
      joinHandle (t.async_invoke p) = some (t.sync_invoke p)) ∧
    (∀ (t : AzureQueueTrigger) (p : JVal),
      joinHandle (t.async_invoke p) = some (t.sync_invoke p)) ∧
    (∀ (t : AzureStorageTrigger) (p : JVal),
      joinHandle (t.async_invoke p) = some (t.sync_invoke p)) ∧
    (∀ (t : AWSLibraryTrigger) (p : JVal) (status : Nat),
      (AWSFunctionLibraryTrigger.async_invoke t p status).isOffloaded = false) ∧
    (∀ (t : AWSLibraryTrigger) (p : JVal),
      AWSWorkflowLibraryTrigger.async_invoke t p =
        .raised (.notImplementedError "Async invocation is not implemented")) := by
  refine ⟨fun t p => rfl, fun t p => rfl, fun t p => rfl, fun t p => rfl,
    ?_, fun t p => rfl⟩
  intro t p status
  by_cases h : status = 202 <;>
    simp [AWSFunctionLibraryTrigger.async_invoke, h, AsyncOutcome.isOffloaded]

/-- Whenever a message arrives within the fuel bound, the storage trigger's
polling loop produces exactly the queue trigger's polling trace shifted by
one leading 5-second sleep, and consumes the same message. -/
theorem storagePoll_eq_sleep_queuePoll (r : Nat → String) :
    ∀ (fuel k : Nat), (∃ j, j < fuel ∧ r (k + j) ≠ "") →
      storagePoll r k fuel =
        (Ev.sleepSecs 5 :: (queuePoll r k fuel).1, (queuePoll r k fuel).2) := by
  intro fuel
  induction fuel with
  | zero =>
    intro k hex
    obtain ⟨j, hj, _⟩ := hex
    exact absurd hj (Nat.not_lt_zero j)
  | succ fuel ih =>
    intro k hex
    by_cases hr : r k = ""
    · have hex' : ∃ j, j < fuel ∧ r ((k + 1) + j) ≠ "" := by
        obtain ⟨j, hj, hne⟩ := hex
        cases j with
        | zero => exact absurd (by simpa using hne) (by simp [hr])
        | succ j =>
          exact ⟨j, Nat.lt_of_succ_lt_succ hj,
            (by omega : k + (j + 1) = (k + 1) + j) ▸ hne⟩
      simp [storagePoll, queuePoll, hr, ih (k + 1) hex']
    · simp [storagePoll, queuePoll, hr]

/-- C10 fails on the code: with a message already available at the first
receive attempt, the queue trigger's `sync_invoke` performs a receive and
no sleep, while the storage trigger's `sync_invoke` sleeps 5 seconds
before its first receive — the ordering of receive attempts and sleeps is
not identical. -/
theorem c10_counterexample :
    ((AzureStorageTrigger.sync_invoke
        (AzureStorageTrigger.init "fn" "acct" "reg" none none) (.obj [])
        (fun _ => "msg") 3).1.tail ≠
      (AzureQueueTrigger.sync_invoke
        (AzureQueueTrigger.init "fn" "acct" "reg" none none) (.obj [])
        (fun _ => "msg") 3).1.tail) ∧
      (AzureQueueTrigger.sync_invoke
        (AzureQueueTrigger.init "fn" "acct" "reg" none none) (.obj [])
        (fun _ => "msg") 3).1.tail = [Ev.recvAttempt] ∧
      (AzureStorageTrigger.sync_invoke
        (AzureStorageTrigger.init "fn" "acct" "reg" none none) (.obj [])
        (fun _ => "msg") 3).1.tail = [Ev.sleepSecs 5, Ev.recvAttempt] := by
  exact ⟨by decide, rfl, rfl⟩

/-- C10 amended: after uploading the payload object, the storage trigger
polls the same result queue at the same fixed 5-second interval and
consumes the same message as the queue trigger, but with the opposite
ordering of receive attempts and sleeps: it sleeps before each receive
attempt (the queue trigger receives first), so whenever a message arrives
within the fuel bound its trace is the queue trigger's polling trace
prefixed by one extra 5-second sleep. -/
theorem c10_amended_poll_with_leading_sleep :
    ∀ (t : AzureStorageTrigger) (tq : AzureQueueTrigger) (p q : JVal)
      (r : Nat → String) (fuel : Nat),
      (∃ j, j < fuel ∧ r j ≠ "") →
      AzureStorageTrigger.sync_invoke t p r fuel =
        (Ev.uploadBlob :: Ev.sleepSecs 5 ::
          (AzureQueueTrigger.sync_invoke tq q r fuel).1.tail,
         (AzureQueueTrigger.sync_invoke tq q r fuel).2) := by
  intro t tq p q r fuel hex
  have h := storagePoll_eq_sleep_queuePoll r fuel 0 (by simpa using hex)
  simp [AzureStorageTrigger.sync_invoke, AzureQueueTrigger.sync_invoke, h]

/-- Witness for C10 at a concrete oracle delivering immediately. -/
theorem c10_witness :
    AzureStorageTrigger.sync_invoke
        (AzureStorageTrigger.init "fn" "acct" "reg" none none) (.obj [])
        (fun _ => "msg") 3 =
      (Ev.uploadBlob :: Ev.sleepSecs 5 ::
        (AzureQueueTrigger.sync_invoke
          (AzureQueueTrigger.init "fn" "acct" "reg" none none) (.obj [])
          (fun _ => "msg") 3).1.tail,
       (AzureQueueTrigger.sync_invoke
          (AzureQueueTrigger.init "fn" "acct" "reg" none none) (.obj [])
          (fun _ => "msg") 3).2) :=
  c10_amended_poll_with_leading_sleep
    (AzureStorageTrigger.init "fn" "acct" "reg" none none)
    (AzureQueueTrigger.init "fn" "acct" "reg" none none)
    (.obj []) (.obj []) (fun _ => "msg") 3 ⟨0, by decide, by decide⟩

end SeBS
